import Mathlib

/-!
Shallow embedding of `main.py`, the pipeline driver of the short-term
rental price ML pipeline.  The configuration (a hydra `DictConfig`) is
modelled as a Lean structure whose scalar leaves are opaque strings; the
body of `go` is modelled as a pure function from the configuration (and
the ambient original working directory used to build local component
paths) to the list of observable events it performs: setting environment
variables, writing the `rf_config.json` file, and launching `mlflow.run`
invocations.  Failure of an external run is modelled by a separate
executor over the event trace that stops at the first failing run.
-/

/-- The `main` section of the configuration. -/
structure MainConfig where
  project_name : String
  experiment_name : String
  steps : String
  components_repository : String
  latest_tag : String
  reference_tag : String
  prod_tag : String
deriving DecidableEq, Repr

/-- The `etl` section of the configuration. -/
structure EtlConfig where
  sample : String
  min_price : String
  max_price : String
deriving DecidableEq, Repr

/-- The `basic_cleaning` section of the configuration. -/
structure BasicCleaningConfig where
  input_artifact : String
  output_artifact : String
deriving DecidableEq, Repr

/-- The `data_check` section of the configuration. -/
structure DataCheckConfig where
  kl_threshold : String
deriving DecidableEq, Repr

/-- The `modeling.random_forest` subtree, modelled as its ordered
key/value items, matching `dict(config["modeling"]["random_forest"].items())`. -/
structure RandomForestConfig where
  items : List (String × String)
deriving DecidableEq, Repr

/-- The `modeling` section of the configuration. -/
structure ModelingConfig where
  test_size : String
  random_seed : String
  stratify_by : String
  val_size : String
  max_tfidf_features : String
  trainval_artifact : String
  output_artifact : String
  test_artifact : String
  random_forest : RandomForestConfig
deriving DecidableEq, Repr

/-- The whole configuration read by `go`. -/
structure Config where
  main : MainConfig
  etl : EtlConfig
  basic_cleaning : BasicCleaningConfig
  data_check : DataCheckConfig
  modeling : ModelingConfig
deriving DecidableEq, Repr

/-- One `mlflow.run(uri, entry_point, [version], parameters)` call.
Parameter dictionaries are modelled as association lists in insertion
order (Python dicts preserve insertion order and the literals in
`main.py` have distinct keys). -/
structure RunInvocation where
  uri : String
  entry_point : String
  version : Option String
  parameters : List (String × String)
deriving DecidableEq, Repr

/-- An observable action of `go`: setting a process environment variable,
writing the `rf_config.json` file (content modelled as the dumped
key/value items), or launching an `mlflow.run`.  Run events are tagged
with the name of the stage whose `if`-block emits them. -/
inductive Event where
  | setEnv (name value : String)
  | writeFile (path : String) (content : List (String × String))
  | run (stage : String) (inv : RunInvocation)
deriving DecidableEq, Repr

/-- Helper for Python `str.split(",")`: accumulates the current field in
reverse and closes it at every comma. -/
def splitCommaAux : List Char → List Char → List String
  | [], acc => [⟨acc.reverse⟩]
  | c :: rest, acc =>
    if c = ',' then ⟨acc.reverse⟩ :: splitCommaAux rest []
    else splitCommaAux rest (c :: acc)

/-- Python `s.split(",")` for a single-character separator: fields are
kept verbatim (no stripping), empty fields are kept, and the empty
string splits to `[""]`. -/
def splitComma (s : String) : List String :=
  splitCommaAux s.data []

/-- `os.path.join a b` for the relative component names used in
`main.py`. -/
def pathJoin (a b : String) : String := a ++ "/" ++ b

/-- The module-level `_steps` list of `main.py`.  Note that
`"test_regression_model"` is commented out there on purpose, so it is
absent from this list. -/
def _steps : List String :=
  ["download", "basic_cleaning", "data_check", "data_split",
   "train_random_forest"]

/-- `active_steps = steps_par.split(",") if steps_par != "all" else _steps`. -/
def activeSteps (config : Config) : List String :=
  if config.main.steps ≠ "all" then splitComma config.main.steps else _steps

/-- The six stage names recognized by the `if`-blocks of `go`, in the
order the blocks appear in the source. -/
def stageOrder : List String :=
  ["download", "basic_cleaning", "data_check", "data_split",
   "train_random_forest", "test_regression_model"]

/-- The `mlflow.run` call of the `download` block. -/
def downloadInvocation (config : Config) : RunInvocation :=
  { uri := config.main.components_repository ++ "/get_data"
    entry_point := "main"
    version := some "main"
    parameters :=
      [("sample", config.etl.sample),
       ("artifact_name", "sample.csv"),
       ("artifact_type", "raw_data"),
       ("artifact_description", "Raw file as downloaded")] }

/-- The `mlflow.run` call of the `basic_cleaning` block; `cwd` stands for
`hydra.utils.get_original_cwd()`. -/
def basicCleaningInvocation (cwd : String) (config : Config) : RunInvocation :=
  { uri := pathJoin (pathJoin cwd "src") "basic_cleaning"
    entry_point := "main"
    version := none
    parameters :=
      [("input_artifact",
          config.main.project_name ++ "/" ++
            config.basic_cleaning.input_artifact ++ ":" ++
            config.main.latest_tag),
       ("output_artifact", config.basic_cleaning.output_artifact),
       ("output_type", "clean_sample"),
       ("output_description", "Data with outliers removed and date converted"),
       ("min_price", config.etl.min_price),
       ("max_price", config.etl.max_price)] }

/-- The `mlflow.run` call of the `data_check` block. -/
def dataCheckInvocation (cwd : String) (config : Config) : RunInvocation :=
  { uri := pathJoin (pathJoin cwd "src") "data_check"
    entry_point := "main"
    version := none
    parameters :=
      [("csv",
          config.main.project_name ++ "/" ++
            config.basic_cleaning.output_artifact ++ ":" ++
            config.main.latest_tag),
       ("ref",
          config.main.project_name ++ "/" ++
            config.basic_cleaning.output_artifact ++ ":" ++
            config.main.reference_tag),
       ("kl_threshold", config.data_check.kl_threshold),
       ("min_price", config.etl.min_price),
       ("max_price", config.etl.max_price)] }

/-- The `mlflow.run` call of the `data_split` block. -/
def dataSplitInvocation (config : Config) : RunInvocation :=
  { uri := config.main.components_repository ++ "/train_val_test_split"
    entry_point := "main"
    version := none
    parameters :=
      [("input",
          config.main.project_name ++ "/" ++
            config.basic_cleaning.output_artifact ++ ":" ++
            config.main.latest_tag),
       ("test_size", config.modeling.test_size),
       ("random_seed", config.modeling.random_seed),
       ("stratify_by", config.modeling.stratify_by)] }

/-- The content written to `rf_config.json`:
`dict(config["modeling"]["random_forest"].items())`. -/
def rfConfigItems (config : Config) : List (String × String) :=
  config.modeling.random_forest.items

/-- The name of the JSON file written by the `train_random_forest` block.
The source takes `os.path.abspath` of this name against the process
working directory; only the fixed file name is modelled. -/
def rfConfigPath : String := "rf_config.json"

/-- The `mlflow.run` call of the `train_random_forest` block. -/
def trainRandomForestInvocation (cwd : String) (config : Config) :
    RunInvocation :=
  { uri := pathJoin (pathJoin cwd "src") "train_random_forest"
    entry_point := "main"
    version := none
    parameters :=
      [("trainval_artifact",
          config.main.project_name ++ "/" ++
            config.modeling.trainval_artifact ++ ":" ++
            config.main.latest_tag),
       ("val_size", config.modeling.val_size),
       ("random_seed", config.modeling.random_seed),
       ("stratify_by", config.modeling.stratify_by),
       ("rf_config", rfConfigPath),
       ("max_tfidf_features", config.modeling.max_tfidf_features),
       ("output_artifact", config.modeling.output_artifact)] }

/-- The `mlflow.run` call of the `test_regression_model` block. -/
def testRegressionModelInvocation (config : Config) : RunInvocation :=
  { uri := config.main.components_repository ++ "/test_regression_model"
    entry_point := "main"
    version := none
    parameters :=
      [("mlflow_model",
          config.main.project_name ++ "/" ++
            config.modeling.output_artifact ++ ":" ++
            config.main.prod_tag),
       ("test_dataset",
          config.main.project_name ++ "/" ++
            config.modeling.test_artifact ++ ":" ++
            config.main.latest_tag)] }

/-- The trace of observable events performed by one call of `go`, in the
order the source performs them: the two environment-variable
assignments, then one block per recognized stage name guarded by
membership in `active_steps`. -/
def goEvents (cwd : String) (config : Config) : List Event :=
  [Event.setEnv "WANDB_PROJECT" config.main.project_name,
   Event.setEnv "WANDB_RUN_GROUP" config.main.experiment_name]
  ++ (if "download" ∈ activeSteps config then
        [Event.run "download" (downloadInvocation config)] else [])
  ++ (if "basic_cleaning" ∈ activeSteps config then
        [Event.run "basic_cleaning" (basicCleaningInvocation cwd config)]
      else [])
  ++ (if "data_check" ∈ activeSteps config then
        [Event.run "data_check" (dataCheckInvocation cwd config)] else [])
  ++ (if "data_split" ∈ activeSteps config then
        [Event.run "data_split" (dataSplitInvocation config)] else [])
  ++ (if "train_random_forest" ∈ activeSteps config then
        [Event.writeFile rfConfigPath (rfConfigItems config),
         Event.run "train_random_forest"
           (trainRandomForestInvocation cwd config)] else [])
  ++ (if "test_regression_model" ∈ activeSteps config then
        [Event.run "test_regression_model"
           (testRegressionModelInvocation config)] else [])

/-- The stage name of a run event, `none` for the other events. -/
def eventRunStage : Event → Option String
  | Event.run s _ => some s
  | _ => none

/-- The stages `go` invokes, in invocation order. -/
def invokedStages (cwd : String) (config : Config) : List String :=
  (goEvents cwd config).filterMap eventRunStage

/-- The stage/parameter-dictionary pairs of the runs `go` launches, in
invocation order. -/
def paramsTrace (cwd : String) (config : Config) :
    List (String × List (String × String)) :=
  (goEvents cwd config).filterMap fun e =>
    match e with
    | Event.run s inv => some (s, inv.parameters)
    | _ => none

/-- The file writes `go` performs, in order. -/
def fileWrites (cwd : String) (config : Config) :
    List (String × List (String × String)) :=
  (goEvents cwd config).filterMap fun e =>
    match e with
    | Event.writeFile p c => some (p, c)
    | _ => none

/-- Execute a trace against an oracle telling which runs fail (an
exception from `mlflow.run`).  Returns the events actually performed and
`true` for normal completion, `false` when a failing run aborted the
rest of the trace (the exception propagates uncaught out of `go`). -/
def execEvents (fails : String → RunInvocation → Bool) :
    List Event → List Event × Bool
  | [] => ([], true)
  | Event.run s inv :: rest =>
    if fails s inv then ([Event.run s inv], false)
    else (Event.run s inv :: (execEvents fails rest).1,
          (execEvents fails rest).2)
  | e :: rest => (e :: (execEvents fails rest).1, (execEvents fails rest).2)

-- scratch checks
example : splitComma "" = [""] := by decide
example : splitComma "a,,b" = ["a", "", "b"] := by decide
example : splitComma "download,data_check" = ["download", "data_check"] := by
  decide

/-! ### General lemmas about the trace -/

lemma invokedStages_eq_filter (cwd : String) (config : Config) :
    invokedStages cwd config =
      stageOrder.filter (fun s => decide (s ∈ activeSteps config)) := by
  unfold invokedStages goEvents stageOrder
  by_cases h1 : "download" ∈ activeSteps config <;>
  by_cases h2 : "basic_cleaning" ∈ activeSteps config <;>
  by_cases h3 : "data_check" ∈ activeSteps config <;>
  by_cases h4 : "data_split" ∈ activeSteps config <;>
  by_cases h5 : "train_random_forest" ∈ activeSteps config <;>
  by_cases h6 : "test_regression_model" ∈ activeSteps config <;>
  simp [h1, h2, h3, h4, h5, h6, eventRunStage]

lemma invokedStages_nodup (cwd : String) (config : Config) :
    (invokedStages cwd config).Nodup := by
  rw [invokedStages_eq_filter]
  exact (by decide : stageOrder.Nodup).filter _

lemma paramsTrace_cwd_irrelevant (cwd cwd2 : String) (config : Config) :
    paramsTrace cwd config = paramsTrace cwd2 config := by
  unfold paramsTrace goEvents
  by_cases h1 : "download" ∈ activeSteps config <;>
  by_cases h2 : "basic_cleaning" ∈ activeSteps config <;>
  by_cases h3 : "data_check" ∈ activeSteps config <;>
  by_cases h4 : "data_split" ∈ activeSteps config <;>
  by_cases h5 : "train_random_forest" ∈ activeSteps config <;>
  by_cases h6 : "test_regression_model" ∈ activeSteps config <;>
  simp [h1, h2, h3, h4, h5, h6, basicCleaningInvocation, dataCheckInvocation,
    trainRandomForestInvocation]

lemma execEvents_no_failure (l : List Event) :
    execEvents (fun _ _ => false) l = (l, true) := by
  induction l with
  | nil => rfl
  | cons e rest ih => cases e <;> simp [execEvents, ih]

lemma execEvents_false_spec (fails : String → RunInvocation → Bool)
    (l : List Event) (h : (execEvents fails l).2 = false) :
    ∃ pre s inv post,
      l = pre ++ Event.run s inv :: post ∧
      (execEvents fails l).1 = pre ++ [Event.run s inv] ∧
      fails s inv = true := by
  induction l with
  | nil => simp [execEvents] at h
  | cons e rest ih =>
    cases e with
    | run s inv =>
      by_cases hf : fails s inv = true
      · exact ⟨[], s, inv, rest, by simp, by simp [execEvents, hf], hf⟩
      · have hf' : fails s inv = false := by
          simpa using hf
        have h2 : (execEvents fails rest).2 = false := by
          simpa [execEvents, hf'] using h
        obtain ⟨pre, t, inv2, post, hl, he, hft⟩ := ih h2
        exact ⟨Event.run s inv :: pre, t, inv2, post, by simp [hl],
          by simp [execEvents, hf', he], hft⟩
    | setEnv n v =>
      have h2 : (execEvents fails rest).2 = false := by
        simpa [execEvents] using h
      obtain ⟨pre, t, inv2, post, hl, he, hft⟩ := ih h2
      exact ⟨Event.setEnv n v :: pre, t, inv2, post, by simp [hl],
        by simp [execEvents, he], hft⟩
    | writeFile p c =>
      have h2 : (execEvents fails rest).2 = false := by
        simpa [execEvents] using h
      obtain ⟨pre, t, inv2, post, hl, he, hft⟩ := ih h2
      exact ⟨Event.writeFile p c :: pre, t, inv2, post, by simp [hl],
        by simp [execEvents, he], hft⟩

/-! ### A concrete configuration family used for witnesses -/

/-- A concrete `main` section with a given `steps` value. -/
def baseMain (steps : String) : MainConfig :=
  { project_name := "nyc_airbnb"
    experiment_name := "development"
    steps := steps
    components_repository := "https://github.com/udacity/components"
    latest_tag := "latest"
    reference_tag := "reference"
    prod_tag := "prod" }

/-- A concrete full configuration with a given `steps` value. -/
def baseConfig (steps : String) : Config :=
  { main := baseMain steps
    etl := { sample := "sample1.csv", min_price := "10", max_price := "350" }
    basic_cleaning :=
      { input_artifact := "sample.csv", output_artifact := "clean_sample.csv" }
    data_check := { kl_threshold := "0.2" }
    modeling :=
      { test_size := "0.2"
        random_seed := "42"
        stratify_by := "neighbourhood_group"
        val_size := "0.2"
        max_tfidf_features := "5"
        trainval_artifact := "trainval_data.csv"
        output_artifact := "random_forest_export"
        test_artifact := "test_data.csv"
        random_forest := { items := [("n_estimators", "100"),
                                     ("max_depth", "15")] } } }

/-! ### Claim theorems -/

/-- Claim C1: for every configuration whose `main.steps` string is not the
literal `"all"`, the set of stages invoked by `go` is exactly the set of
recognized stage names that occur as elements of the comma-split of that
string. -/
theorem go_invokes_exactly_recognized_split_steps (cwd : String)
    (config : Config) (h : config.main.steps ≠ "all") (s : String) :
    s ∈ invokedStages cwd config ↔
      s ∈ stageOrder ∧ s ∈ splitComma config.main.steps := by
  rw [invokedStages_eq_filter, List.mem_filter]
  simp [activeSteps, h]

/-- Witness for claim C1 at a concrete configuration selecting
`download` and `data_check`. -/
theorem go_invokes_exactly_recognized_split_steps_witness :
    (baseConfig "download,data_check").main.steps ≠ "all" ∧
    ("data_check" ∈ invokedStages "." (baseConfig "download,data_check") ↔
      "data_check" ∈ stageOrder ∧
        "data_check" ∈
          splitComma (baseConfig "download,data_check").main.steps) :=
  ⟨by decide, go_invokes_exactly_recognized_split_steps "."
    (baseConfig "download,data_check") (by decide) "data_check"⟩

/-- Counterexample to claim C2 as stated: with `main.steps = "all"`, `go`
invokes only the five stages of `_steps`; `test_regression_model` is not
invoked, because it is commented out of `_steps` in the source. -/
theorem go_all_skips_test_regression_model :
    (baseConfig "all").main.steps = "all" ∧
    invokedStages "." (baseConfig "all") =
      ["download", "basic_cleaning", "data_check", "data_split",
       "train_random_forest"] ∧
    "test_regression_model" ∉ invokedStages "." (baseConfig "all") :=
  ⟨rfl, by decide, by decide⟩

/-- Claim C2 (amended): for every configuration whose `main.steps` equals
the literal `"all"`, `go` invokes exactly the five stages of the
module-level `_steps` list (download, basic_cleaning, data_check,
data_split, train_random_forest), in that order; `test_regression_model`
is deliberately excluded from `_steps` and is not invoked. -/
theorem go_all_invokes_steps_list (cwd : String) (config : Config)
    (h : config.main.steps = "all") :
    invokedStages cwd config = _steps ∧
    "test_regression_model" ∉ invokedStages cwd config := by
  have ha : activeSteps config = _steps := by
    unfold activeSteps
    rw [h]
    decide
  rw [invokedStages_eq_filter, ha]
  exact ⟨by decide, by decide⟩

/-- Witness for the amended claim C2 at a concrete configuration. -/
theorem go_all_invokes_steps_list_witness :
    (baseConfig "all").main.steps = "all" ∧
    invokedStages "/x" (baseConfig "all") = _steps :=
  ⟨rfl, (go_all_invokes_steps_list "/x" (baseConfig "all") rfl).1⟩

/-- Claim C4: the stages `go` invokes are invoked strictly sequentially
in the fixed program order (the trace is a list), and the invocation
order is the order of the `if`-blocks in the source — the filter of
`stageOrder` by membership in `active_steps` — regardless of the order
of the names in the comma-separated `main.steps` list. -/
theorem go_invokes_stages_in_fixed_order (cwd : String) (config : Config) :
    invokedStages cwd config =
      stageOrder.filter (fun s => decide (s ∈ activeSteps config)) ∧
    List.Sublist (invokedStages cwd config) stageOrder :=
  ⟨invokedStages_eq_filter cwd config, by
    rw [invokedStages_eq_filter]
    exact List.filter_sublist _⟩

/-- Claim C5: the only file `go` writes is the single JSON file
`rf_config.json`, holding the `modeling.random_forest` items, and the
write happens if and only if the `train_random_forest` stage is
active. -/
theorem go_writes_only_rf_config (cwd : String) (config : Config) :
    fileWrites cwd config =
      if "train_random_forest" ∈ activeSteps config then
        [(rfConfigPath, rfConfigItems config)] else [] := by
  unfold fileWrites goEvents
  by_cases h1 : "download" ∈ activeSteps config <;>
  by_cases h2 : "basic_cleaning" ∈ activeSteps config <;>
  by_cases h3 : "data_check" ∈ activeSteps config <;>
  by_cases h4 : "data_split" ∈ activeSteps config <;>
  by_cases h5 : "train_random_forest" ∈ activeSteps config <;>
  by_cases h6 : "test_regression_model" ∈ activeSteps config <;>
  simp [h1, h2, h3, h4, h5, h6]

/-- Claim C7: each stage is invoked at most once per execution of `go`,
even when its name appears multiple times in the comma-separated
`main.steps` list. -/
theorem go_invokes_each_stage_at_most_once (cwd : String) (config : Config)
    (s : String) : (invokedStages cwd config).count s ≤ 1 :=
  List.nodup_iff_count_le_one.mp (invokedStages_nodup cwd config) s

/-- Claim C10: a recognized stage is invoked if and only if its exact
name is a member of the computed active-steps list, independently of
whether any earlier pipeline stage is selected. -/
theorem go_stage_invoked_iff_member (cwd : String) (config : Config)
    (s : String) (h : s ∈ stageOrder) :
    s ∈ invokedStages cwd config ↔ s ∈ activeSteps config := by
  rw [invokedStages_eq_filter, List.mem_filter]
  simp [h]

/-- Witness for claim C10: selecting only `train_random_forest` invokes
only the training stage, with no upstream stage. -/
theorem go_stage_invoked_iff_member_witness :
    "train_random_forest" ∈ stageOrder ∧
    ("train_random_forest" ∈
        invokedStages "." (baseConfig "train_random_forest") ↔
      "train_random_forest" ∈ activeSteps (baseConfig "train_random_forest")) ∧
    invokedStages "." (baseConfig "train_random_forest") =
      ["train_random_forest"] :=
  ⟨by decide,
   go_stage_invoked_iff_member "." (baseConfig "train_random_forest")
     "train_random_forest" (by decide),
   by decide⟩

/-- Claim C9: for every `main.steps` string other than `"all"`, a
comma-separated element that is not exactly one of the six recognized
stage names is silently ignored — it triggers no stage invocation and no
error (the trace executes to completion when no external run fails) —
and an empty `main.steps` string invokes no stage at all. -/
theorem go_ignores_unrecognized_steps (cwd : String) (config : Config)
    (_h : config.main.steps ≠ "all") :
    (∀ s, s ∈ splitComma config.main.steps → s ∉ stageOrder →
        s ∉ invokedStages cwd config) ∧
    (config.main.steps = "" → invokedStages cwd config = []) ∧
    execEvents (fun _ _ => false) (goEvents cwd config) =
      (goEvents cwd config, true) := by
  refine ⟨?_, ?_, execEvents_no_failure _⟩
  · intro s _ hns
    rw [invokedStages_eq_filter, List.mem_filter]
    rintro ⟨hmem, -⟩
    exact hns hmem
  · intro he
    have ha : activeSteps config = [""] := by
      unfold activeSteps
      rw [he]
      decide
    rw [invokedStages_eq_filter, ha]
    decide

/-- Witness for claim C9: the element `"All"` (wrong capitalization) is
ignored, and the empty steps string selects nothing. -/
theorem go_ignores_unrecognized_steps_witness :
    (baseConfig "download,All, basic_cleaning").main.steps ≠ "all" ∧
    "All" ∈ splitComma (baseConfig "download,All, basic_cleaning").main.steps ∧
    "All" ∉ stageOrder ∧
    "All" ∉ invokedStages "." (baseConfig "download,All, basic_cleaning") ∧
    invokedStages "." (baseConfig "") = [] :=
  ⟨by decide, by decide, by decide,
   (go_ignores_unrecognized_steps "."
       (baseConfig "download,All, basic_cleaning") (by decide)).1
     "All" (by decide) (by decide),
   (go_ignores_unrecognized_steps "." (baseConfig "") (by decide)).2.1 rfl⟩

/-- Claim C8: `go` is deterministic in its configuration — two runs with
equal configuration values select the same active stages, invoke the
same stages, and forward identical parameter dictionaries (including the
artifact reference strings concatenated from project name, artifact name
and tag), whatever the ambient original working directory is. -/
theorem go_deterministic_in_config (cwd1 cwd2 : String) (c1 c2 : Config)
    (hm : c1.main = c2.main) (he : c1.etl = c2.etl)
    (hb : c1.basic_cleaning = c2.basic_cleaning)
    (hd : c1.data_check = c2.data_check)
    (hmo : c1.modeling = c2.modeling) :
    activeSteps c1 = activeSteps c2 ∧
    invokedStages cwd1 c1 = invokedStages cwd2 c2 ∧
    paramsTrace cwd1 c1 = paramsTrace cwd2 c2 := by
  obtain ⟨m1, e1, b1, d1, mo1⟩ := c1
  obtain ⟨m2, e2, b2, d2, mo2⟩ := c2
  have hm' : m1 = m2 := hm
  have he' : e1 = e2 := he
  have hb' : b1 = b2 := hb
  have hd' : d1 = d2 := hd
  have hmo' : mo1 = mo2 := hmo
  subst hm' he' hb' hd' hmo'
  refine ⟨rfl, ?_, paramsTrace_cwd_irrelevant cwd1 cwd2 _⟩
  rw [invokedStages_eq_filter, invokedStages_eq_filter]

/-- Witness for claim C8 at a concrete configuration and two different
working directories. -/
theorem go_deterministic_in_config_witness :
    activeSteps (baseConfig "all") = activeSteps (baseConfig "all") ∧
    invokedStages "/a" (baseConfig "all") =
      invokedStages "/b" (baseConfig "all") ∧
    paramsTrace "/a" (baseConfig "all") = paramsTrace "/b" (baseConfig "all") :=
  go_deterministic_in_config "/a" "/b" (baseConfig "all") (baseConfig "all")
    rfl rfl rfl rfl rfl

/-- Claim C3: every stage forwards a parameter dictionary with exactly
that stage's fixed key set; the download stage forwards
`artifact_name = "sample.csv"` and `artifact_type = "raw_data"` as
literals; and each stage's parameter values are computed only from the
configuration entries the source names for it (two configurations that
agree on those entries yield identical parameter dictionaries). -/
theorem go_stage_parameter_dicts (cwd : String) (c c2 : Config) :
    ((downloadInvocation c).parameters.map Prod.fst =
        ["sample", "artifact_name", "artifact_type",
         "artifact_description"] ∧
      (downloadInvocation c).parameters.lookup "artifact_name" =
        some "sample.csv" ∧
      (downloadInvocation c).parameters.lookup "artifact_type" =
        some "raw_data") ∧
    (basicCleaningInvocation cwd c).parameters.map Prod.fst =
      ["input_artifact", "output_artifact", "output_type",
       "output_description", "min_price", "max_price"] ∧
    (dataCheckInvocation cwd c).parameters.map Prod.fst =
      ["csv", "ref", "kl_threshold", "min_price", "max_price"] ∧
    (dataSplitInvocation c).parameters.map Prod.fst =
      ["input", "test_size", "random_seed", "stratify_by"] ∧
    (trainRandomForestInvocation cwd c).parameters.map Prod.fst =
      ["trainval_artifact", "val_size", "random_seed", "stratify_by",
       "rf_config", "max_tfidf_features", "output_artifact"] ∧
    (testRegressionModelInvocation c).parameters.map Prod.fst =
      ["mlflow_model", "test_dataset"] ∧
    (c.etl.sample = c2.etl.sample →
      (downloadInvocation c).parameters = (downloadInvocation c2).parameters) ∧
    (c.main.project_name = c2.main.project_name →
      c.basic_cleaning.input_artifact = c2.basic_cleaning.input_artifact →
      c.main.latest_tag = c2.main.latest_tag →
      c.basic_cleaning.output_artifact = c2.basic_cleaning.output_artifact →
      c.etl.min_price = c2.etl.min_price →
      c.etl.max_price = c2.etl.max_price →
      (basicCleaningInvocation cwd c).parameters =
        (basicCleaningInvocation cwd c2).parameters) ∧
    (c.main.project_name = c2.main.project_name →
      c.basic_cleaning.output_artifact = c2.basic_cleaning.output_artifact →
      c.main.latest_tag = c2.main.latest_tag →
      c.main.reference_tag = c2.main.reference_tag →
      c.data_check.kl_threshold = c2.data_check.kl_threshold →
      c.etl.min_price = c2.etl.min_price →
      c.etl.max_price = c2.etl.max_price →
      (dataCheckInvocation cwd c).parameters =
        (dataCheckInvocation cwd c2).parameters) ∧
    (c.main.project_name = c2.main.project_name →
      c.basic_cleaning.output_artifact = c2.basic_cleaning.output_artifact →
      c.main.latest_tag = c2.main.latest_tag →
      c.modeling.test_size = c2.modeling.test_size →
      c.modeling.random_seed = c2.modeling.random_seed →
      c.modeling.stratify_by = c2.modeling.stratify_by →
      (dataSplitInvocation c).parameters =
        (dataSplitInvocation c2).parameters) ∧
    (c.main.project_name = c2.main.project_name →
      c.modeling.trainval_artifact = c2.modeling.trainval_artifact →
      c.main.latest_tag = c2.main.latest_tag →
      c.modeling.val_size = c2.modeling.val_size →
      c.modeling.random_seed = c2.modeling.random_seed →
      c.modeling.stratify_by = c2.modeling.stratify_by →
      c.modeling.max_tfidf_features = c2.modeling.max_tfidf_features →
      c.modeling.output_artifact = c2.modeling.output_artifact →
      (trainRandomForestInvocation cwd c).parameters =
        (trainRandomForestInvocation cwd c2).parameters) ∧
    (c.main.project_name = c2.main.project_name →
      c.modeling.output_artifact = c2.modeling.output_artifact →
      c.main.prod_tag = c2.main.prod_tag →
      c.modeling.test_artifact = c2.modeling.test_artifact →
      c.main.latest_tag = c2.main.latest_tag →
      (testRegressionModelInvocation c).parameters =
        (testRegressionModelInvocation c2).parameters) := by
  refine ⟨⟨rfl, rfl, rfl⟩, rfl, rfl, rfl, rfl, rfl, ?_, ?_, ?_, ?_, ?_, ?_⟩
  · intro h1
    simp [downloadInvocation, h1]
  · intro h1 h2 h3 h4 h5 h6
    simp [basicCleaningInvocation, h1, h2, h3, h4, h5, h6]
  · intro h1 h2 h3 h4 h5 h6 h7
    simp [dataCheckInvocation, h1, h2, h3, h4, h5, h6, h7]
  · intro h1 h2 h3 h4 h5 h6
    simp [dataSplitInvocation, h1, h2, h3, h4, h5, h6]
  · intro h1 h2 h3 h4 h5 h6 h7 h8
    simp [trainRandomForestInvocation, h1, h2, h3, h4, h5, h6, h7, h8]
  · intro h1 h2 h3 h4 h5
    simp [testRegressionModelInvocation, h1, h2, h3, h4, h5]

/-- Witness for claim C3 at a concrete configuration: the download key
set and the literal values, plus the dependency conjunct discharged
reflexively. -/
theorem go_stage_parameter_dicts_witness :
    (downloadInvocation (baseConfig "all")).parameters.map Prod.fst =
      ["sample", "artifact_name", "artifact_type", "artifact_description"] ∧
    (downloadInvocation (baseConfig "all")).parameters.lookup
      "artifact_name" = some "sample.csv" ∧
    (downloadInvocation (baseConfig "all")).parameters =
      (downloadInvocation (baseConfig "all")).parameters := by
  obtain ⟨⟨hk, hn, -⟩, -, -, -, -, -, hdep, -, -, -, -, -⟩ :=
    go_stage_parameter_dicts "." (baseConfig "all") (baseConfig "all")
  exact ⟨hk, hn, hdep rfl⟩

/-- Claim C6: if an external run for some stage fails, `go` performs no
handling: the trace aborts with failure (the exception propagates
uncaught), the events actually performed are the prefix of the trace up
to and including the failing run, and no stage occurring after the
failing run in the trace is invoked. -/
theorem go_failure_propagates (cwd : String) (config : Config)
    (fails : String → RunInvocation → Bool)
    (h : (execEvents fails (goEvents cwd config)).2 = false) :
    ∃ pre s inv post,
      goEvents cwd config = pre ++ Event.run s inv :: post ∧
      (execEvents fails (goEvents cwd config)).1 = pre ++ [Event.run s inv] ∧
      fails s inv = true ∧
      ∀ t inv2, Event.run t inv2 ∈ post →
        t ∉ ((execEvents fails (goEvents cwd config)).1).filterMap
          eventRunStage := by
  obtain ⟨pre, s, inv, post, hl, he, hf⟩ := execEvents_false_spec fails _ h
  refine ⟨pre, s, inv, post, hl, he, hf, ?_⟩
  intro t inv2 hmem
  have hnd : ((goEvents cwd config).filterMap eventRunStage).Nodup :=
    invokedStages_nodup cwd config
  rw [hl, List.filterMap_append] at hnd
  have hcons : (Event.run s inv :: post).filterMap eventRunStage =
      s :: post.filterMap eventRunStage := by simp [eventRunStage]
  rw [hcons, List.nodup_append] at hnd
  obtain ⟨-, hns, hdisj⟩ := hnd
  have hpost : t ∈ post.filterMap eventRunStage :=
    List.mem_filterMap.mpr ⟨Event.run t inv2, hmem, rfl⟩
  rw [he, List.filterMap_append, List.mem_append]
  rintro (hpre | hsing)
  · exact hdisj hpre (List.mem_cons_of_mem _ hpost)
  · have hts : t = s := by simpa [eventRunStage] using hsing
    subst hts
    exact (List.nodup_cons.mp hns).1 hpost

/-- Witness for claim C6: a run oracle on which the `download` stage
fails aborts the trace of a configuration selecting `download` and
`data_split`. -/
theorem go_failure_propagates_witness :
    (execEvents (fun s _ => s == "download")
        (goEvents "." (baseConfig "download,data_split"))).2 = false ∧
    ∃ pre s inv post,
      goEvents "." (baseConfig "download,data_split") =
        pre ++ Event.run s inv :: post ∧
      (execEvents (fun s _ => s == "download")
          (goEvents "." (baseConfig "download,data_split"))).1 =
        pre ++ [Event.run s inv] ∧
      (fun s _ => s == "download") s inv = true ∧
      ∀ t inv2, Event.run t inv2 ∈ post →
        t ∉ ((execEvents (fun s _ => s == "download")
            (goEvents "." (baseConfig "download,data_split"))).1).filterMap
          eventRunStage :=
  ⟨by decide,
   go_failure_propagates "." (baseConfig "download,data_split")
     (fun s _ => s == "download") (by decide)⟩
